import Mathlib

/-!
Shallow embedding of the tele-consultation call-session core of the
IntelUnnati-HealthcareKiosk repository.

The two consultation pages
(`src/app/(app)/tele-consultation/page.tsx`, patient side, and
`src/app/(app)/tele-consultation/doctor/page.tsx`, doctor side) duplicate the
same PeerJS call logic; the only differences are the user-visible toast
strings.  Each page keeps its state in React `useState`/`useRef` cells:

  peer, peerId, isConnected, remotePeerIdInput, currentCall, isCallActive,
  hasRemoteStream, localStreamRef, hasCameraPermission, isVideoMuted,
  isAudioMuted, remoteVideoRef.srcObject

and mutates it from event handlers (`peer.on('open')`, `peer.on('call')`,
`call.on('stream')`, `call.on('close')`, `call.on('error')`) and user actions
(`makeCall`, `endCall`, `toggleVideo`, `toggleAudio`).

Each handler is embedded as a pure function
`ClientState → ClientState × List Effect`; external observable actions
(toasts, `call.answer`, `peer.call`, `call.close`, `track.stop`) are recorded
in the returned `Effect` list.  The page-specific toast strings are collected
in a `Role` record so that one definition covers both pages.
-/

namespace Kiosk

/-- Kind of a media track: `MediaStream.getVideoTracks` / `getAudioTracks`. -/
inductive TrackKind where
  | audio
  | video
deriving DecidableEq, Repr

/-- A `MediaStreamTrack`: identified object with an `enabled` flag
(`track.enabled`, the mute flag toggled by `toggleVideo`/`toggleAudio`). -/
structure MediaTrack where
  id : Nat
  kind : TrackKind
  enabled : Bool
deriving DecidableEq, Repr

/-- A `MediaStream` object: identity (`id`) plus its ordered track list. -/
structure MediaStream where
  id : Nat
  tracks : List MediaTrack
deriving DecidableEq, Repr

/-- Direction of the call session: whether its handlers were attached by
`makeCall` (outgoing) or by the `peer.on('call')` answer path (incoming).
The two attachments differ: only the outgoing `call.on('error')` handler
resets the session state. -/
inductive Direction where
  | outgoing
  | incoming
deriving DecidableEq, Repr

/-- A PeerJS `MediaConnection` as stored in `currentCall`: an identified
handle carrying the remote participant identity (`call.peer`) and the
direction under which its event handlers were registered. -/
structure CallHandle where
  id : Nat
  peer : String
  direction : Direction
deriving DecidableEq, Repr

/-- Externally observable actions performed by the handlers. -/
inductive Effect where
  | toast (title description : String) (destructive : Bool)
  | answerOffer (callId streamId : Nat)
  | placeOffer (callId : Nat) (toPeer : String) (streamId : Nat)
  | closeCall (callId : Nat)
  | stopTrack (trackId : Nat)
deriving DecidableEq, Repr

/-- The React state of one consultation page (patient or doctor). -/
structure ClientState where
  /-- `peer !== null`: the `Peer` object was constructed (`setPeer`). -/
  peerInitialized : Bool
  /-- `peerId` state (set by the `peer.on('open')` handler). -/
  peerId : String
  /-- `isConnected` state (set by the `peer.on('open')` handler). -/
  isConnected : Bool
  /-- `remotePeerIdInput` state (the text field). -/
  remotePeerIdInput : String
  /-- `currentCall` state. -/
  currentCall : Option CallHandle
  /-- `isCallActive` state. -/
  isCallActive : Bool
  /-- `hasRemoteStream` state. -/
  hasRemoteStream : Bool
  /-- `remoteVideoRef.current.srcObject`: the bound remote stream id. -/
  remoteVideoSrc : Option Nat
  /-- `localStreamRef.current`. -/
  localStream : Option MediaStream
  /-- `hasCameraPermission` state (`null` before the permission resolves). -/
  hasCameraPermission : Option Bool
  /-- `isVideoMuted` state. -/
  isVideoMuted : Bool
  /-- `isAudioMuted` state. -/
  isAudioMuted : Bool
  /-- Allocator for fresh `CallHandle` identities. -/
  nextCallId : Nat
deriving DecidableEq, Repr

/-- The page-specific toast strings (patient page vs doctor page). -/
structure Role where
  openDescPre : String
  answerSuccessTitle : String
  answerSuccessDesc : String
  cannotMakeDesc : String
  callingTitle : String
  callingDescPre : String
  callFailedDesc : String
deriving DecidableEq, Repr

/-- Toast strings of the patient page (`tele-consultation/page.tsx`). -/
def patientRole : Role :=
  { openDescPre := "Your Patient ID: "
    answerSuccessTitle := "Doctor Connected!"
    answerSuccessDesc := "Video call started with Doctor"
    cannotMakeDesc := "Please ensure you\x27re connected and have entered a doctor ID"
    callingTitle := "Calling Doctor..."
    callingDescPre := "Connecting to Doctor ID: "
    callFailedDesc := "Could not connect to doctor. Please check the Doctor ID." }

/-- Toast strings of the doctor page (`tele-consultation/doctor/page.tsx`). -/
def doctorRole : Role :=
  { openDescPre := "Your Doctor ID: "
    answerSuccessTitle := "Patient Connected!"
    answerSuccessDesc := "Video consultation started with Patient"
    cannotMakeDesc := "Please ensure you\x27re connected and have entered a patient ID"
    callingTitle := "Calling Patient..."
    callingDescPre := "Connecting to Patient ID: "
    callFailedDesc := "Could not connect to patient. Please check the Patient ID." }

/-- `peer.on('open', id => ...)`: records the confirmed identity and marks
the relay registration connected. -/
def onOpen (r : Role) (id : String) (s : ClientState) :
    ClientState × List Effect :=
  ({ s with peerId := id, isConnected := true },
   [Effect.toast "Connected to Server" (r.openDescPre ++ id) false])

/-- `peer.on('call', call => ...)`: the inbound-offer handler.  With a local
stream present it answers immediately (`call.answer(localStreamRef.current)`),
stores the call and marks it active; otherwise it only surfaces a
"Cannot Answer Call" toast and leaves all state unchanged. -/
def onIncomingCall (r : Role) (fromPeer : String) (s : ClientState) :
    ClientState × List Effect :=
  match s.localStream with
  | some st =>
      ({ s with currentCall := some ⟨s.nextCallId, fromPeer, Direction.incoming⟩
                isCallActive := true
                nextCallId := s.nextCallId + 1 },
       [Effect.answerOffer s.nextCallId st.id,
        Effect.toast r.answerSuccessTitle r.answerSuccessDesc false])
  | none =>
      (s, [Effect.toast "Cannot Answer Call"
            "Camera not ready. Please refresh and try again." true])

/-- `call.on('stream', remoteStream => ...)` (identical in the incoming and
outgoing attachments): binds the remote stream to the remote video element. -/
def onCallStream (remoteStreamId : Nat) (s : ClientState) :
    ClientState × List Effect :=
  ({ s with hasRemoteStream := true, remoteVideoSrc := some remoteStreamId },
   [])

/-- `call.on('close', () => ...)` (identical in the incoming and outgoing
attachments): resets the session state and clears the remote video. -/
def onCallClose (s : ClientState) : ClientState × List Effect :=
  ({ s with isCallActive := false
            currentCall := none
            hasRemoteStream := false
            remoteVideoSrc := none },
   [])

/-- `call.on('error', ...)` as attached by the inbound-answer path
(`peer.on('call')`): it only logs and toasts; no state is touched. -/
def onCallErrorIncoming (s : ClientState) : ClientState × List Effect :=
  (s, [Effect.toast "Call Error"
        "There was an issue with the video call" true])

/-- `call.on('error', ...)` as attached by `makeCall`: resets the session
state and surfaces a "Call Failed" toast. -/
def onCallErrorOutgoing (r : Role) (s : ClientState) :
    ClientState × List Effect :=
  ({ s with isCallActive := false
            currentCall := none
            hasRemoteStream := false },
   [Effect.toast "Call Failed" r.callFailedDesc true])

/-- `makeCall`: guarded by
`if (!peer || !remotePeerIdInput || !localStreamRef.current)`; on success it
issues `peer.call(remotePeerIdInput, localStreamRef.current)`, stores the
fresh handle and marks the call active. -/
def makeCall (r : Role) (s : ClientState) : ClientState × List Effect :=
  if s.peerInitialized = false ∨ s.remotePeerIdInput = "" then
    (s, [Effect.toast "Cannot Make Call" r.cannotMakeDesc true])
  else
    match s.localStream with
    | none => (s, [Effect.toast "Cannot Make Call" r.cannotMakeDesc true])
    | some st =>
        ({ s with currentCall :=
                    some ⟨s.nextCallId, s.remotePeerIdInput, Direction.outgoing⟩
                  isCallActive := true
                  nextCallId := s.nextCallId + 1 },
         [Effect.placeOffer s.nextCallId s.remotePeerIdInput st.id,
          Effect.toast r.callingTitle
            (r.callingDescPre ++ s.remotePeerIdInput) false])

/-- `endCall`: `if (currentCall) { currentCall.close(); ... }` — when a call
is stored it closes it, resets the session state, clears the remote video and
toasts; when no call is stored it does nothing at all. -/
def endCall (s : ClientState) : ClientState × List Effect :=
  match s.currentCall with
  | some c =>
      ({ s with currentCall := none
                isCallActive := false
                hasRemoteStream := false
                remoteVideoSrc := none },
       [Effect.closeCall c.id,
        Effect.toast "Call Ended" "The consultation has been terminated" false])
  | none => (s, [])

/-- `getVideoTracks()[0]` / `getAudioTracks()[0]`: the first track of the
given kind. -/
def firstTrack (k : TrackKind) : List MediaTrack → Option MediaTrack
  | [] => none
  | t :: ts => if t.kind = k then some t else firstTrack k ts

/-- `track.enabled = !track.enabled` on the first track of the given kind,
in place in the stream's track list. -/
def toggleFirstTrack (k : TrackKind) : List MediaTrack → List MediaTrack
  | [] => []
  | t :: ts =>
      if t.kind = k then { t with enabled := !t.enabled } :: ts
      else t :: toggleFirstTrack k ts

/-- `toggleVideo`: flips `enabled` on the first video track of the local
stream (if both exist) and sets `isVideoMuted` to `!videoTrack.enabled`
(read after the flip, i.e. to the pre-flip value). -/
def toggleVideo (s : ClientState) : ClientState × List Effect :=
  match s.localStream with
  | none => (s, [])
  | some st =>
      match firstTrack TrackKind.video st.tracks with
      | none => (s, [])
      | some t =>
          ({ s with localStream :=
                      some { st with tracks := toggleFirstTrack TrackKind.video st.tracks }
                    isVideoMuted := t.enabled },
           [])

/-- `toggleAudio`: same as `toggleVideo` for the first audio track and
`isAudioMuted`. -/
def toggleAudio (s : ClientState) : ClientState × List Effect :=
  match s.localStream with
  | none => (s, [])
  | some st =>
      match firstTrack TrackKind.audio st.tracks with
      | none => (s, [])
      | some t =>
          ({ s with localStream :=
                      some { st with tracks := toggleFirstTrack TrackKind.audio st.tracks }
                    isAudioMuted := t.enabled },
           [])

/-- The call button of both pages: `disabled={!remotePeerIdInput || !isConnected}`.
This predicate is the button being enabled. -/
def makeCallEnabled (s : ClientState) : Bool :=
  (s.remotePeerIdInput != "") && s.isConnected

/-! ## Participant identity generation

`const generatePatientId = () =>
  \x60PT-${Math.random().toString(36).substr(2, 8).toUpperCase()}\x60;`
(and `DR-` on the doctor page).

`Math.random()` yields a double in `[0, 1)`; JavaScript
`Number.prototype.toString(36)` renders it as `"0"` when it is zero and
otherwise as `"0."` followed by the base-36 fraction digits in shortest form
(no trailing zero digit).  The random value is modelled by that digit list. -/

/-- The lowercase base-36 digit characters used by `Number.toString(36)`. -/
def base36Char (d : Fin 36) : Char :=
  if d.val < 10 then Char.ofNat (48 + d.val) else Char.ofNat (97 + (d.val - 10))

/-- `x.toString(36)` for `x` in `[0,1)` whose base-36 fraction digits are
`ds` (shortest form: no trailing zero digit; empty exactly when `x = 0`). -/
def toString36Frac (ds : List (Fin 36)) : String :=
  if ds.isEmpty then "0"
  else String.mk (Char.ofNat 48 :: Char.ofNat 46 :: ds.map base36Char)

/-- JavaScript `String.prototype.substr(start, len)` (non-negative
arguments): take `len` characters from index `start`, clamped. -/
def jsSubstr (s : String) (start len : Nat) : String :=
  String.mk ((s.data.drop start).take len)

/-- JavaScript `String.prototype.toUpperCase()` on ASCII content. -/
def jsToUpperCase (s : String) : String :=
  String.mk (s.data.map Char.toUpper)

/-- The shared identity template: role tag, hyphen, then
`Math.random().toString(36).substr(2, 8).toUpperCase()`. -/
def generateId (roleTag : String) (ds : List (Fin 36)) : String :=
  roleTag ++ "-" ++ jsToUpperCase (jsSubstr (toString36Frac ds) 2 8)

/-- `generatePatientId` (patient page, line 31). -/
def generatePatientId (ds : List (Fin 36)) : String := generateId "PT" ds

/-- `generateDoctorId` (doctor page, line 11). -/
def generateDoctorId (ds : List (Fin 36)) : String := generateId "DR" ds

/-- A character is an uppercase base-36 character: a decimal digit or an
uppercase letter. -/
def isUpperBase36 (c : Char) : Bool :=
  (48 ≤ c.toNat && c.toNat ≤ 57) || (65 ≤ c.toNat && c.toNat ≤ 90)

/-! ## Concrete states used by witnesses and counterexamples -/

/-- A granted local stream with one video and one audio track. -/
def streamA : MediaStream :=
  ⟨1, [⟨10, TrackKind.video, true⟩, ⟨11, TrackKind.audio, true⟩]⟩

/-- Patient client: registered, camera granted, idle. -/
def sIdleReady : ClientState :=
  { peerInitialized := true
    peerId := "PT-ABC12345"
    isConnected := true
    remotePeerIdInput := ""
    currentCall := none
    isCallActive := false
    hasRemoteStream := false
    remoteVideoSrc := none
    localStream := some streamA
    hasCameraPermission := some true
    isVideoMuted := false
    isAudioMuted := false
    nextCallId := 0 }

/-- Patient client in an active incoming call from `DR-XYZ98765`. -/
def sActiveIncoming : ClientState :=
  { sIdleReady with
      currentCall := some ⟨0, "DR-XYZ98765", Direction.incoming⟩
      isCallActive := true
      hasRemoteStream := true
      remoteVideoSrc := some 99
      nextCallId := 1 }

/-- Patient client whose camera permission was denied: no local stream. -/
def sNoMedia : ClientState :=
  { sIdleReady with
      localStream := none
      hasCameraPermission := some false }

/-- Patient client while the `Peer` object exists but the relay registration
has not opened yet (`setPeer` ran; `peer.on('open')` has not fired). -/
def sPeerNotOpen : ClientState :=
  { sIdleReady with
      isConnected := false
      peerId := ""
      remotePeerIdInput := "DR-XYZ98765" }

/-! ## Theorems -/

/-- C1, counterexample: the claim fails for incoming calls.  In the active
incoming call `sActiveIncoming`, an `errored` event on the `CallHandle` runs
the `call.on('error')` handler attached by `peer.on('call')`, which does not
return the state machine to Idle: the call stays active, the handle stays
stored and the remote stream stays bound. -/
theorem errored_incoming_counterexample :
    (onCallErrorIncoming sActiveIncoming).1.isCallActive = true ∧
    (onCallErrorIncoming sActiveIncoming).1.currentCall =
      some ⟨0, "DR-XYZ98765", Direction.incoming⟩ ∧
    (onCallErrorIncoming sActiveIncoming).1.hasRemoteStream = true :=
  ⟨rfl, rfl, rfl⟩

/-- C1, amended: an `errored` event on an outgoing call returns the state
machine to Idle (`isCallActive` false, `currentCall` cleared,
`hasRemoteStream` false), emits exactly one transient notice and leaves the
relay registration health (`isConnected`, `peerId`) unchanged; an `errored`
event on an incoming call emits exactly one transient notice and leaves the
entire state — including the still-active session — unchanged, so it too
never affects relay registration health. -/
theorem errored_session_scope (r : Role) (s : ClientState) :
    (onCallErrorOutgoing r s).1.isCallActive = false ∧
    (onCallErrorOutgoing r s).1.currentCall = none ∧
    (onCallErrorOutgoing r s).1.hasRemoteStream = false ∧
    (onCallErrorOutgoing r s).1.isConnected = s.isConnected ∧
    (onCallErrorOutgoing r s).1.peerId = s.peerId ∧
    (onCallErrorOutgoing r s).2 =
      [Effect.toast "Call Failed" r.callFailedDesc true] ∧
    (onCallErrorIncoming s).1 = s ∧
    (onCallErrorIncoming s).2 =
      [Effect.toast "Call Error" "There was an issue with the video call" true] :=
  ⟨rfl, rfl, rfl, rfl, rfl, rfl, rfl, rfl⟩

/-- C2, counterexample: the claim fails — nothing rejects a second session.
In the active incoming call `sActiveIncoming`, a second inbound offer from
`DR-SECOND00` is auto-answered: a fresh `CallHandle` replaces the current
session's handle and an `answer` is issued. -/
theorem second_offer_replaces_call_counterexample :
    sActiveIncoming.isCallActive = true ∧
    sActiveIncoming.currentCall = some ⟨0, "DR-XYZ98765", Direction.incoming⟩ ∧
    (onIncomingCall patientRole "DR-SECOND00" sActiveIncoming).1.currentCall =
      some ⟨1, "DR-SECOND00", Direction.incoming⟩ ∧
    Effect.answerOffer 1 streamA.id ∈
      (onIncomingCall patientRole "DR-SECOND00" sActiveIncoming).2 := by
  refine ⟨rfl, rfl, rfl, ?_⟩
  decide

/-- C2, amended: at most one `CallHandle` is stored at a time, but the
single-call constraint is not enforced by any guard: while a call is active,
an inbound offer (with local media present) is auto-answered and its fresh
handle replaces the current session's handle, and `makeCall` (when its own
guards pass) likewise places a new offer and replaces the stored handle. -/
theorem no_single_call_guard (r : Role) (s : ClientState) (st : MediaStream)
    (hs : s.localStream = some st) (_ha : s.isCallActive = true) :
    (∀ fromPeer : String,
      (onIncomingCall r fromPeer s).1.currentCall =
        some ⟨s.nextCallId, fromPeer, Direction.incoming⟩ ∧
      (onIncomingCall r fromPeer s).1.isCallActive = true ∧
      Effect.answerOffer s.nextCallId st.id ∈ (onIncomingCall r fromPeer s).2) ∧
    (s.peerInitialized = true → s.remotePeerIdInput ≠ "" →
      (makeCall r s).1.currentCall =
        some ⟨s.nextCallId, s.remotePeerIdInput, Direction.outgoing⟩ ∧
      Effect.placeOffer s.nextCallId s.remotePeerIdInput st.id ∈
        (makeCall r s).2) := by
  constructor
  · intro fromPeer
    refine ⟨?_, ?_, ?_⟩ <;> simp [onIncomingCall, hs]
  · intro hp hr
    refine ⟨?_, ?_⟩ <;> simp [makeCall, hp, hr, hs]

/-- Witness for C2's amended theorem at the active incoming-call state. -/
theorem no_single_call_guard_witness :
    (onIncomingCall patientRole "DR-NEXT5678" sActiveIncoming).1.currentCall =
      some ⟨1, "DR-NEXT5678", Direction.incoming⟩ ∧
    (onIncomingCall patientRole "DR-NEXT5678" sActiveIncoming).1.isCallActive
      = true ∧
    Effect.answerOffer 1 streamA.id ∈
      (onIncomingCall patientRole "DR-NEXT5678" sActiveIncoming).2 :=
  (no_single_call_guard patientRole sActiveIncoming streamA rfl rfl).1
    "DR-NEXT5678"

/-- C3: an inbound offer arriving while the local media stream is absent is
a pure no-op on the state — the session stays Idle, no handle is stored, no
answer is issued, no resource is acquired — and exactly one non-fatal
"Cannot Answer Call" notice is surfaced. -/
theorem incoming_offer_without_media_is_noop (r : Role) (fromPeer : String)
    (s : ClientState) (h : s.localStream = none) :
    onIncomingCall r fromPeer s =
      (s, [Effect.toast "Cannot Answer Call"
            "Camera not ready. Please refresh and try again." true]) := by
  simp [onIncomingCall, h]

/-- Witness for C3 at the camera-denied state. -/
theorem incoming_offer_without_media_is_noop_witness :
    sNoMedia.localStream = none ∧
    onIncomingCall patientRole "DR-XYZ98765" sNoMedia =
      (sNoMedia, [Effect.toast "Cannot Answer Call"
        "Camera not ready. Please refresh and try again." true]) :=
  ⟨rfl,
   incoming_offer_without_media_is_noop patientRole "DR-XYZ98765" sNoMedia rfl⟩

/-- C9: a remote `closed` event on an active call returns the session to
Idle and clears the remote binding (`isCallActive` false, `currentCall`
none, `hasRemoteStream` false, remote video source null) while leaving
everything else untouched: the local media stream (no track stopped or
modified, no effect emitted), the registration health (`isConnected`,
`peerId`) and the remaining fields. -/
theorem remote_close_resets_session_frame (s : ClientState)
    (_h : s.isCallActive = true) :
    (onCallClose s).1.isCallActive = false ∧
    (onCallClose s).1.currentCall = none ∧
    (onCallClose s).1.hasRemoteStream = false ∧
    (onCallClose s).1.remoteVideoSrc = none ∧
    (onCallClose s).1.localStream = s.localStream ∧
    (onCallClose s).1.isConnected = s.isConnected ∧
    (onCallClose s).1.peerId = s.peerId ∧
    (onCallClose s).1.peerInitialized = s.peerInitialized ∧
    (onCallClose s).1.hasCameraPermission = s.hasCameraPermission ∧
    (onCallClose s).1.isVideoMuted = s.isVideoMuted ∧
    (onCallClose s).1.isAudioMuted = s.isAudioMuted ∧
    (onCallClose s).1.remotePeerIdInput = s.remotePeerIdInput ∧
    (onCallClose s).2 = [] :=
  ⟨rfl, rfl, rfl, rfl, rfl, rfl, rfl, rfl, rfl, rfl, rfl, rfl, rfl⟩

/-- Witness for C9 at the active incoming-call state. -/
theorem remote_close_resets_session_frame_witness :
    (onCallClose sActiveIncoming).1.isCallActive = false ∧
    (onCallClose sActiveIncoming).1.currentCall = none ∧
    (onCallClose sActiveIncoming).1.hasRemoteStream = false ∧
    (onCallClose sActiveIncoming).1.remoteVideoSrc = none ∧
    (onCallClose sActiveIncoming).1.localStream = sActiveIncoming.localStream ∧
    (onCallClose sActiveIncoming).1.isConnected = sActiveIncoming.isConnected ∧
    (onCallClose sActiveIncoming).1.peerId = sActiveIncoming.peerId ∧
    (onCallClose sActiveIncoming).1.peerInitialized
      = sActiveIncoming.peerInitialized ∧
    (onCallClose sActiveIncoming).1.hasCameraPermission
      = sActiveIncoming.hasCameraPermission ∧
    (onCallClose sActiveIncoming).1.isVideoMuted
      = sActiveIncoming.isVideoMuted ∧
    (onCallClose sActiveIncoming).1.isAudioMuted
      = sActiveIncoming.isAudioMuted ∧
    (onCallClose sActiveIncoming).1.remotePeerIdInput
      = sActiveIncoming.remotePeerIdInput ∧
    (onCallClose sActiveIncoming).2 = [] :=
  remote_close_resets_session_frame sActiveIncoming rfl

/-- C7: `endCall` is idempotent.  In any state satisfying the session
invariant (no stored call implies no active call and no remote stream —
true of every reachable state, since every handler clears or sets these
fields together), one `endCall` leaves the session Idle, and a second
`endCall` changes nothing and performs no side effect at all: no second
`close()`, no duplicate notice, no track stop. -/
theorem endCall_idempotent (s : ClientState)
    (h : s.currentCall = none →
      s.isCallActive = false ∧ s.hasRemoteStream = false) :
    (endCall s).1.currentCall = none ∧
    (endCall s).1.isCallActive = false ∧
    (endCall s).1.hasRemoteStream = false ∧
    endCall (endCall s).1 = ((endCall s).1, []) := by
  cases hc : s.currentCall with
  | none =>
      have h2 := h hc
      simp [endCall, hc, h2.1, h2.2]
  | some c =>
      simp [endCall, hc]

/-- Witness for C7 at the active incoming-call state. -/
theorem endCall_idempotent_witness :
    (endCall sActiveIncoming).1.currentCall = none ∧
    (endCall sActiveIncoming).1.isCallActive = false ∧
    (endCall sActiveIncoming).1.hasRemoteStream = false ∧
    endCall (endCall sActiveIncoming).1 = ((endCall sActiveIncoming).1, []) :=
  endCall_idempotent sActiveIncoming (by decide)

/-- C10: `toggleVideo` / `toggleAudio` with no local stream, or with a
stream lacking a track of the corresponding kind, is a total no-op: the
state is unchanged and no effect is performed. -/
theorem toggle_without_track_is_noop (s : ClientState) :
    (s.localStream = none →
      toggleVideo s = (s, []) ∧ toggleAudio s = (s, [])) ∧
    (∀ st, s.localStream = some st →
      firstTrack TrackKind.video st.tracks = none →
      toggleVideo s = (s, [])) ∧
    (∀ st, s.localStream = some st →
      firstTrack TrackKind.audio st.tracks = none →
      toggleAudio s = (s, [])) := by
  refine ⟨fun h => ⟨?_, ?_⟩, fun st h ht => ?_, fun st h ht => ?_⟩
  · simp [toggleVideo, h]
  · simp [toggleAudio, h]
  · simp [toggleVideo, h, ht]
  · simp [toggleAudio, h, ht]

/-- Witness for C10 at the camera-denied state. -/
theorem toggle_without_track_is_noop_witness :
    toggleVideo sNoMedia = (sNoMedia, []) ∧
    toggleAudio sNoMedia = (sNoMedia, []) :=
  (toggle_without_track_is_noop sNoMedia).1 rfl

/-- Flipping the first track of a kind twice restores the track list. -/
theorem toggleFirstTrack_involutive (k : TrackKind) (l : List MediaTrack) :
    toggleFirstTrack k (toggleFirstTrack k l) = l := by
  induction l with
  | nil => rfl
  | cons t ts ih =>
      by_cases hk : t.kind = k
      · simp [toggleFirstTrack, hk]
        rw [← hk]
      · simp [toggleFirstTrack, hk, ih]

/-- After one flip, the first track of the kind is the flipped track. -/
theorem firstTrack_toggleFirstTrack (k : TrackKind) (l : List MediaTrack)
    (t : MediaTrack) (h : firstTrack k l = some t) :
    firstTrack k (toggleFirstTrack k l) =
      some { t with enabled := !t.enabled } := by
  induction l with
  | nil => simp [firstTrack] at h
  | cons a ts ih =>
      by_cases hk : a.kind = k
      · simp [firstTrack, hk] at h
        subst h
        simp [toggleFirstTrack, firstTrack, hk]
      · simp [firstTrack, hk] at h
        simp [toggleFirstTrack, firstTrack, hk, ih h]

/-- C8: when the local stream holds a video track (and the mute indicator is
consistent with it, as in every reachable state), two `toggleVideo` calls
restore the whole client state — in particular the track's `enabled` flag
and `isVideoMuted` — and across the single toggle the stream bound in
`localStreamRef` keeps its identity (same `MediaStream` object, tracks
mutated in place); no effect is performed by either toggle. -/
theorem toggleVideo_roundtrip (s : ClientState) (st : MediaStream)
    (t : MediaTrack) (hs : s.localStream = some st)
    (ht : firstTrack TrackKind.video st.tracks = some t)
    (hm : s.isVideoMuted = !t.enabled) :
    (toggleVideo (toggleVideo s).1).1 = s ∧
    ((toggleVideo s).1.localStream).map MediaStream.id = some st.id ∧
    (toggleVideo s).2 = [] ∧
    (toggleVideo (toggleVideo s).1).2 = [] := by
  have h1 : toggleVideo s =
      ({ s with
          localStream :=
            some { st with tracks := toggleFirstTrack TrackKind.video st.tracks }
          isVideoMuted := t.enabled }, []) := by
    simp [toggleVideo, hs, ht]
  have h2 := firstTrack_toggleFirstTrack TrackKind.video st.tracks t ht
  refine ⟨?_, ?_, ?_, ?_⟩
  · rw [h1]
    simp only [toggleVideo, h2, toggleFirstTrack_involutive]
    have hst : ({ st with tracks := st.tracks } : MediaStream) = st := rfl
    rw [hst, ← hm, ← hs]
  · rw [h1]
    rfl
  · rw [h1]
  · rw [h1]
    simp only [toggleVideo, h2]

/-- Witness for C8 at the ready patient state (video track enabled). -/
theorem toggleVideo_roundtrip_witness :
    (toggleVideo (toggleVideo sIdleReady).1).1 = sIdleReady ∧
    ((toggleVideo sIdleReady).1.localStream).map MediaStream.id
      = some streamA.id ∧
    (toggleVideo sIdleReady).2 = [] ∧
    (toggleVideo (toggleVideo sIdleReady).1).2 = [] :=
  toggleVideo_roundtrip sIdleReady streamA ⟨10, TrackKind.video, true⟩
    rfl rfl rfl

/-- C4: an inbound offer while Idle with local media present is
auto-answered with the local stream (`answer(offer, localStream)`, no human
accept/reject step): exactly one session becomes active, stored as the
single fresh `CallHandle` whose remote identity equals the offer's source
identity, and the subsequent `streamReceived` event binds the remote stream
while preserving that identity. -/
theorem incoming_offer_autoanswer (r : Role) (s : ClientState)
    (st : MediaStream) (fromPeer : String) (remoteStreamId : Nat)
    (hs : s.localStream = some st) (_hi : s.isCallActive = false) :
    (onIncomingCall r fromPeer s).1.isCallActive = true ∧
    (onIncomingCall r fromPeer s).1.currentCall =
      some ⟨s.nextCallId, fromPeer, Direction.incoming⟩ ∧
    (onIncomingCall r fromPeer s).2 =
      [Effect.answerOffer s.nextCallId st.id,
       Effect.toast r.answerSuccessTitle r.answerSuccessDesc false] ∧
    (onCallStream remoteStreamId
      (onIncomingCall r fromPeer s).1).1.hasRemoteStream = true ∧
    (onCallStream remoteStreamId
      (onIncomingCall r fromPeer s).1).1.remoteVideoSrc
        = some remoteStreamId ∧
    (onCallStream remoteStreamId
      (onIncomingCall r fromPeer s).1).1.currentCall =
        some ⟨s.nextCallId, fromPeer, Direction.incoming⟩ := by
  refine ⟨?_, ?_, ?_, ?_, ?_, ?_⟩ <;>
    simp [onIncomingCall, onCallStream, hs]

/-- Witness for C4: offer from `DR-XYZ98765` at the ready Idle state. -/
theorem incoming_offer_autoanswer_witness :
    (onIncomingCall patientRole "DR-XYZ98765" sIdleReady).1.isCallActive
      = true ∧
    (onIncomingCall patientRole "DR-XYZ98765" sIdleReady).1.currentCall =
      some ⟨0, "DR-XYZ98765", Direction.incoming⟩ ∧
    (onIncomingCall patientRole "DR-XYZ98765" sIdleReady).2 =
      [Effect.answerOffer 0 streamA.id,
       Effect.toast patientRole.answerSuccessTitle
         patientRole.answerSuccessDesc false] ∧
    (onCallStream 55
      (onIncomingCall patientRole "DR-XYZ98765" sIdleReady).1).1.hasRemoteStream
        = true ∧
    (onCallStream 55
      (onIncomingCall patientRole "DR-XYZ98765" sIdleReady).1).1.remoteVideoSrc
        = some 55 ∧
    (onCallStream 55
      (onIncomingCall patientRole "DR-XYZ98765" sIdleReady).1).1.currentCall =
        some ⟨0, "DR-XYZ98765", Direction.incoming⟩ :=
  incoming_offer_autoanswer patientRole sIdleReady streamA "DR-XYZ98765" 55
    rfl rfl

/-- C5, counterexample: the claim fails — `makeCall` does not require the
relay registration to be open.  In `sPeerNotOpen` the `Peer` object exists
but `isConnected` is still false (the `open` event has not fired);
`makeCall` nevertheless places the offer and activates the session, instead
of surfacing a notice and leaving the session Idle. -/
theorem makeCall_before_open_counterexample :
    sPeerNotOpen.isConnected = false ∧
    (makeCall patientRole sPeerNotOpen).1.isCallActive = true ∧
    (makeCall patientRole sPeerNotOpen).1.currentCall =
      some ⟨0, "DR-XYZ98765", Direction.outgoing⟩ ∧
    Effect.placeOffer 0 "DR-XYZ98765" streamA.id ∈
      (makeCall patientRole sPeerNotOpen).2 := by
  refine ⟨rfl, ?_, ?_, ?_⟩ <;> decide

/-- C5, amended: `makeCall` fires exactly when the `Peer` object exists, the
remote identity is non-empty and the local stream is present — an open relay
registration is not among its own guards (it is enforced only by the page
disabling the call button until `isConnected`).  When any of the three
guards fails, `makeCall` surfaces one notice and leaves the state unchanged;
when all three hold it places the offer and records direction outgoing. -/
theorem makeCall_guard_characterization (r : Role) (s : ClientState) :
    ((s.peerInitialized = false ∨ s.remotePeerIdInput = "" ∨
        s.localStream = none) →
      makeCall r s =
        (s, [Effect.toast "Cannot Make Call" r.cannotMakeDesc true])) ∧
    (∀ st : MediaStream, s.peerInitialized = true →
      s.remotePeerIdInput ≠ "" → s.localStream = some st →
      (makeCall r s).1.isCallActive = true ∧
      (makeCall r s).1.currentCall =
        some ⟨s.nextCallId, s.remotePeerIdInput, Direction.outgoing⟩ ∧
      (makeCall r s).2 =
        [Effect.placeOffer s.nextCallId s.remotePeerIdInput st.id,
         Effect.toast r.callingTitle
           (r.callingDescPre ++ s.remotePeerIdInput) false]) ∧
    (makeCallEnabled s = true → s.isConnected = true) := by
  refine ⟨?_, ?_, ?_⟩
  · intro h
    rcases h with h | h | h
    · simp [makeCall, h]
    · simp [makeCall, h]
    · by_cases hp : s.peerInitialized = false
      · simp [makeCall, hp]
      · by_cases hr : s.remotePeerIdInput = ""
        · simp [makeCall, hr]
        · simp [makeCall, hp, hr, h]
  · intro st hp hr hst
    refine ⟨?_, ?_, ?_⟩ <;> simp [makeCall, hp, hr, hst]
  · intro h
    simp [makeCallEnabled] at h
    exact h.2

/-- Witness for C5's amended theorem: guard failure at the camera-denied
state, with exactly one notice and unchanged state. -/
theorem makeCall_guard_characterization_witness :
    makeCall patientRole sNoMedia =
      (sNoMedia,
       [Effect.toast "Cannot Make Call" patientRole.cannotMakeDesc true]) :=
  (makeCall_guard_characterization patientRole sNoMedia).1
    (Or.inr (Or.inr rfl))

/-- Every uppercased base-36 digit is an uppercase base-36 character. -/
theorem base36Char_toUpper_upperBase36 :
    ∀ d : Fin 36, isUpperBase36 (Char.toUpper (base36Char d)) = true := by
  decide

/-- C6, counterexample: the claim fails when `Math.random()` returns `0`:
`(0).toString(36)` is `"0"`, its `substr(2, 8)` is empty, and the generated
identity is `"PT-"` — a suffix of zero characters, not exactly eight.  (Any
double whose base-36 fraction has fewer than eight digits, e.g. `0.5` with
`toString(36)` equal to `"0.i"`, gives the same kind of short suffix.) -/
theorem identity_format_counterexample :
    generatePatientId [] = "PT-" ∧ (generatePatientId []).length = 3 ∧
    generatePatientId [⟨18, by decide⟩] = "PT-I" ∧
    (generatePatientId [⟨18, by decide⟩]).length = 4 := by
  refine ⟨rfl, rfl, ?_, rfl⟩
  decide

/-- The uppercased, eight-truncated identity suffix of a digit list. -/
def idSuffix (ds : List (Fin 36)) : String :=
  String.mk (((ds.map base36Char).take 8).map Char.toUpper)

/-- The patient identity splits as `"PT-"` followed by the suffix. -/
theorem generatePatientId_eq (ds : List (Fin 36)) :
    generatePatientId ds = "PT-" ++ idSuffix ds := by
  cases ds with
  | nil => rfl
  | cons d ds' => rfl

/-- The doctor identity splits as `"DR-"` followed by the suffix. -/
theorem generateDoctorId_eq (ds : List (Fin 36)) :
    generateDoctorId ds = "DR-" ++ idSuffix ds := by
  cases ds with
  | nil => rfl
  | cons d ds' => rfl

/-- The suffix has `min 8 k` characters, `k` the number of digits. -/
theorem idSuffix_length (ds : List (Fin 36)) :
    (idSuffix ds).length = min 8 ds.length := by
  simp [idSuffix, String.length]

/-- Every character of the suffix is an uppercase base-36 character. -/
theorem idSuffix_upperBase36 (ds : List (Fin 36)) :
    ∀ c ∈ (idSuffix ds).data, isUpperBase36 c = true := by
  intro c hc
  simp only [idSuffix] at hc
  obtain ⟨x, hx, rfl⟩ := List.mem_map.1 hc
  obtain ⟨d, _, rfl⟩ := List.mem_map.1 (List.mem_of_mem_take hx)
  exact base36Char_toUpper_upperBase36 d

/-- C6, amended: for every output of the random source, the generated
identity is the role tag (`PT` or `DR`), a hyphen, then the base-36
fraction digits of the random value, uppercased and truncated to eight:
at most eight uppercase base-36 characters, and exactly eight whenever the
value's base-36 fraction has at least eight digits. -/
theorem generated_identity_format (ds : List (Fin 36)) :
    generatePatientId ds = "PT-" ++ idSuffix ds ∧
    generateDoctorId ds = "DR-" ++ idSuffix ds ∧
    (idSuffix ds).length = min 8 ds.length ∧
    (8 ≤ ds.length → (idSuffix ds).length = 8) ∧
    (∀ c ∈ (idSuffix ds).data, isUpperBase36 c = true) :=
  ⟨generatePatientId_eq ds, generateDoctorId_eq ds, idSuffix_length ds,
   fun h => by rw [idSuffix_length]; omega,
   idSuffix_upperBase36 ds⟩

/-- Witness for C6's amended theorem at an eight-digit expansion. -/
theorem generated_identity_format_witness :
    generatePatientId [0, 1, 2, 3, 4, 5, 6, 7] =
      "PT-" ++ idSuffix [0, 1, 2, 3, 4, 5, 6, 7] ∧
    generateDoctorId [0, 1, 2, 3, 4, 5, 6, 7] =
      "DR-" ++ idSuffix [0, 1, 2, 3, 4, 5, 6, 7] ∧
    (idSuffix [0, 1, 2, 3, 4, 5, 6, 7]).length =
      min 8 (List.length [0, 1, 2, 3, 4, 5, 6, 7]) ∧
    (8 ≤ List.length ([0, 1, 2, 3, 4, 5, 6, 7] : List (Fin 36)) →
      (idSuffix [0, 1, 2, 3, 4, 5, 6, 7]).length = 8) ∧
    (∀ c ∈ (idSuffix [0, 1, 2, 3, 4, 5, 6, 7]).data,
      isUpperBase36 c = true) :=
  generated_identity_format [0, 1, 2, 3, 4, 5, 6, 7]

end Kiosk
